import Mathlib

/-
  Verification of the centrifuge client core (client.go, config.go).

  The Go source is embedded shallowly: each Lean definition mirrors one
  function (or one inline code block) of src/client.go, with machine
  integers as Nat reduced modulo 2 ^ 32 where the Go code uses uint32,
  Go maps as association lists, and the event callbacks of the client
  recorded as an explicit list of emitted events.  The files sub.go,
  events.go and errors.go of the repository are not under src/; the few
  pieces needed from them (the Subscription record, the error values)
  are modelled from the spec and marked as such in their doc comments.
-/

namespace Centrifuge

/- Client connection statuses, client.go lines 22-28 (Go iota). -/

def DISCONNECTED : Nat := 0

def CONNECTING : Nat := 1

def CONNECTED : Nat := 2

def RECONNECTING : Nat := 3

def CLOSED : Nat := 4

/- Subscription statuses.  Modelled from the spec, section 3: the
   Subscription state machine of sub.go (not under src/) has states
   UNSUBSCRIBED, SUBSCRIBING, SUBSCRIBED, SUBSCRIBE_ERROR with initial
   state UNSUBSCRIBED. -/

def UNSUBSCRIBED : Nat := 0

def SUBSCRIBING : Nat := 1

def SUBSCRIBED : Nat := 2

def SUBSCRIBE_ERROR : Nat := 3

/-- Modelled from the spec: the library error values of errors.go,
which is not under src/ (spec section 7 error kinds: Timeout,
ClientDisconnected, ClientClosed, DuplicateSubscription).  The
constructor EOF stands for the io.EOF value that Client.send returns on
a write error (client.go line 1390). -/
inductive Err where
  | Timeout
  | ClientDisconnected
  | ClientClosed
  | DuplicateSubscription
  | EOF
deriving DecidableEq, Repr

/-- serverSub, client.go lines 30-34: bookkeeping for a channel the
server subscribed the client to (uint64 offset as Nat). -/
structure serverSub where
  Offset : Nat
  Epoch : String
  Recoverable : Bool
deriving DecidableEq, Repr

/-- Modelled from the spec: the Subscription record of sub.go, which is
not under src/ (spec section 3: channel name, status with initial value
UNSUBSCRIBED, recover flag; the per-subscription callbacks are recorded
as events). -/
structure Subscription where
  channel : String
  subStatus : Nat := UNSUBSCRIBED
  recover : Bool := false
deriving DecidableEq, Repr

/-- The disconnect advisory record, client.go lines 16-19. -/
structure disconnect where
  Reason : String
  Reconnect : Bool
deriving DecidableEq, Repr

/-- Events emitted by the client core.  The Go code invokes optional
user callbacks (OnDisconnect, OnUnsubscribe, OnServerPublish, the
per-request callbacks); the embedding records each invocation as a list
element so that theorems can speak about which events fire. -/
inductive Event where
  | OnDisconnect (reason : String) (reconnect : Bool)
  | OnUnsubscribe (channel : String)
  | OnServerPublish (channel : String) (offset : Nat)
  | CbErr (id : Nat) (e : Err)
deriving DecidableEq, Repr

/-- The mutable state of Client, client.go lines 37-65, restricted to
the fields the claims are about.  transportOpen models `transport !=
nil`; requests keeps the ids of the pending request callbacks;
closeChClosed models whether close(closeCh) has been executed. -/
structure Client where
  status : Nat
  id : String
  reconnect : Bool
  transportOpen : Bool
  requests : List Nat
  subs : List (String × Subscription)
  serverSubs : List (String × serverSub)
  reconnectAttempts : Nat
  closeChClosed : Bool
deriving DecidableEq, Repr

/-- The client produced by New, client.go lines 86-105: status
DISCONNECTED, empty maps, reconnect flag true, no transport. -/
def New : Client :=
  { status := DISCONNECTED
    id := ""
    reconnect := true
    transportOpen := false
    requests := []
    subs := []
    serverSubs := []
    reconnectAttempts := 0
    closeChClosed := false }

/- Association-list counterparts of the Go map operations. -/

/-- Lookup in a Go map represented as an association list. -/
def lookupKey {α : Type} : List (String × α) → String → Option α
  | [], _ => none
  | (k, v) :: rest, ch => if k = ch then some v else lookupKey rest ch

/-- Number of entries stored under a key. -/
def countKey {α : Type} (m : List (String × α)) (ch : String) : Nat :=
  (m.filter (fun p => p.1 = ch)).length

/-- nextMsgID, client.go lines 67-69: atomic.AddUint32(msgID, 1)
returns the incremented counter value as a uint32, i.e. the increment
wraps modulo 2 ^ 32.  The argument is the previous counter value, the
result is the allocated command id (which is also the new counter
value). -/
def nextMsgID (msgID : Nat) : Nat :=
  (msgID + 1) % 2 ^ 32

/-- C6, counterexample: the claim says every id allocated by nextMsgID
is nonzero "including after the counter wraps around", but at the wrap
itself (previous counter value 2 ^ 32 - 1) nextMsgID returns 0: the
code adds 1 modulo 2 ^ 32 with no zero-skipping. -/
theorem C6_counterexample : nextMsgID (2 ^ 32 - 1) = 0 := by
  norm_num [nextMsgID]

/-- C6, amended: the command-id counter increments modulo 2 ^ 32 and
the allocated id is nonzero exactly when the previous counter value is
not 2 ^ 32 - 1; in particular the first 2 ^ 32 - 1 allocated ids are
nonzero, and the single allocation at the wrap returns 0. -/
theorem C6_amended (m : Nat) (h : m < 2 ^ 32) :
    nextMsgID m = (m + 1) % 2 ^ 32 ∧ (nextMsgID m = 0 ↔ m = 2 ^ 32 - 1) := by
  have h32 : (2 : Nat) ^ 32 = 4294967296 := by norm_num
  refine ⟨rfl, ?_⟩
  rw [nextMsgID, h32] at *
  omega

/-- C6, witness for the amended theorem at the concrete counter value
5: the allocated id is 6 and it is nonzero. -/
theorem C6_amended_witness :
    nextMsgID 5 = (5 + 1) % 2 ^ 32 ∧ (nextMsgID 5 = 0 ↔ 5 = 2 ^ 32 - 1) :=
  C6_amended 5 (by norm_num)

/-- handleDisconnect, client.go lines 298-377.  A nil advisory defaults
to reason "connection closed" with Reconnect true (lines 299-304).
When the status is already DISCONNECTED or CLOSED the routine returns
immediately without touching any state and without firing events
(lines 307-310).  Otherwise it drains the request registry invoking
every pending callback with ErrClientDisconnected (lines 312-318 and
339-343), closes and clears the transport (lines 320-323), remembers
whether the status was CONNECTING or CONNECTED to decide if
OnDisconnect fires (lines 330, 363-367), sets the reconnect flag and
the new status (lines 331-336), and notifies every Subscription with
OnUnsubscribe while setting its recover flag to the advisory's
Reconnect value (lines 345-356; triggerOnUnsubscribe lives in sub.go,
modelled from the spec as emitting the OnUnsubscribe event). -/
def Client.handleDisconnect (c : Client) (dopt : Option disconnect) :
    Client × List Event :=
  let d := dopt.getD { Reason := "connection closed", Reconnect := true }
  if c.status = DISCONNECTED ∨ c.status = CLOSED then
    (c, [])
  else
    let reqs := c.requests
    let needDisconnectEvent := c.status = CONNECTING ∨ c.status = CONNECTED
    let c1 : Client :=
      { c with
        requests := []
        transportOpen := false
        reconnect := d.Reconnect
        status := if d.Reconnect then RECONNECTING else DISCONNECTED
        subs := c.subs.map (fun p => (p.1, { p.2 with recover := d.Reconnect })) }
    let evs : List Event :=
      reqs.map (fun rid => Event.CbErr rid Err.ClientDisconnected)
        ++ c.subs.map (fun p => Event.OnUnsubscribe p.1)
        ++ (if needDisconnectEvent then [Event.OnDisconnect d.Reason d.Reconnect] else [])
    (c1, evs)

/-- disconnect, client.go lines 818-827: store the chosen reconnect
flag, then run handleDisconnect with a "clean disconnect" advisory.
The Go function always returns a nil error. -/
def Client.disconnect (c : Client) (reconnect : Bool) : Client × List Event :=
  let c1 : Client := { c with reconnect := reconnect }
  c1.handleDisconnect (some { Reconnect := reconnect, Reason := "clean disconnect" })

/-- Disconnect, client.go lines 830-832: disconnect(false). -/
def Client.Disconnect (c : Client) : Client × List Event :=
  c.disconnect false

/-- Close, client.go lines 234-245: first Disconnect, then under the
mutex return nil if the status is already CLOSED, otherwise execute
close(closeCh) — which in Go panics when the channel is already closed,
modelled by the Except error — and set the status to CLOSED. -/
def Client.Close (c : Client) : Except String (Client × List Event) :=
  let r := c.Disconnect
  if r.1.status = CLOSED then
    .ok r
  else if r.1.closeChClosed then
    .error "close of closed channel"
  else
    .ok ({ r.1 with closeChClosed := true, status := CLOSED }, r.2)

/-- The entry checks of connectFromScratch, client.go lines 630-648:
a reconnect attempt finding status DISCONNECTED returns nil at once; a
CLOSED client yields ErrClientClosed; otherwise the status becomes
RECONNECTING (reconnect) or CONNECTING (first connect) and the
reconnect flag is set to true, and the dial proceeds. -/
inductive ConnectEntry where
  | retNil
  | retClosed
  | proceed (c : Client)
deriving DecidableEq, Repr

def Client.connectFromScratchEntry (c : Client) (isReconnect : Bool) : ConnectEntry :=
  if isReconnect ∧ c.status = DISCONNECTED then
    .retNil
  else if c.status = CLOSED then
    .retClosed
  else
    .proceed
      { c with
        status := if isReconnect then RECONNECTING else CONNECTING
        reconnect := true }

/-- The state update performed by the sendConnect callback on a
successful connect reply, client.go lines 701-708 and 789: if the
status is still CONNECTING or RECONNECTING, store the server-assigned
client id from the reply and move to CONNECTED (the reconnect-attempt
counter is reset later in the same callback, line 789). -/
def Client.applyConnectResult (c : Client) (resClient : String) : Client :=
  if c.status = CONNECTING ∨ c.status = RECONNECTING then
    { c with id := resClient, status := CONNECTED, reconnectAttempts := 0 }
  else
    c

/-- send, client.go lines 1382-1393: a nil transport yields
ErrClientDisconnected; a failed transport write triggers an
asynchronous handleDisconnect with reason "write error" and returns
io.EOF; otherwise the write succeeds.  The success of the transport
write is an input of the model (writeOk). -/
def Client.send (c : Client) (writeOk : Bool) :
    Option Err × Client × List Event :=
  if ¬ c.transportOpen then
    (some Err.ClientDisconnected, c, [])
  else if writeOk then
    (none, c, [])
  else
    let r := c.handleDisconnect (some { Reason := "write error", Reconnect := true })
    (some Err.EOF, r.1, r.2)

/-- handleDisconnect never writes the id field. -/
theorem handleDisconnect_keeps_id (c : Client) (dopt : Option disconnect) :
    (c.handleDisconnect dopt).1.id = c.id := by
  simp only [Client.handleDisconnect]
  split <;> rfl

/-- handleDisconnect returns immediately when the status is already
DISCONNECTED or CLOSED (client.go lines 307-310). -/
theorem handleDisconnect_early_return (c : Client) (dopt : Option disconnect)
    (h : c.status = DISCONNECTED ∨ c.status = CLOSED) :
    c.handleDisconnect dopt = (c, []) := by
  simp only [Client.handleDisconnect]
  rw [if_pos h]

/-- The state reached from a fresh client by connect (status
CONNECTING), a successful connect reply assigning client id
"client-1", and then Disconnect. -/
def connectedThenDisconnected : Client :=
  ((Client.applyConnectResult
      { New with status := CONNECTING, reconnect := true } "client-1").Disconnect).1

/-- C2, counterexample: handleDisconnect (client.go lines 298-377)
never clears c.id, so after a successful connect followed by
Disconnect the state has status DISCONNECTED yet a non-empty
identifier — refuting "the identifier is non-empty iff the status is
CONNECTED" and "every transition out of CONNECTED leaves the
identifier empty". -/
theorem C2_counterexample :
    ¬ (connectedThenDisconnected.id ≠ ""
        ↔ connectedThenDisconnected.status = CONNECTED) := by
  decide

/-- C2, amended: the server-assigned identifier is written only by a
successful connect reply (applyConnectResult stores the reply's client
field while CONNECTING or RECONNECTING) and is never cleared by
handleDisconnect or disconnect; a transition out of CONNECTED therefore
leaves the identifier at its previous value instead of emptying it. -/
theorem C2_amended (c : Client) (dopt : Option disconnect) (r : Bool) (s : String)
    (h : c.status = CONNECTING ∨ c.status = RECONNECTING) :
    (c.handleDisconnect dopt).1.id = c.id
      ∧ (c.disconnect r).1.id = c.id
      ∧ (c.applyConnectResult s).id = s := by
  refine ⟨handleDisconnect_keeps_id c dopt, ?_, ?_⟩
  · rw [Client.disconnect]
    exact handleDisconnect_keeps_id _ _
  · rw [Client.applyConnectResult, if_pos h]

/-- C2, witness for the amended theorem at a concrete CONNECTING
client. -/
theorem C2_amended_witness :
    (({ New with status := CONNECTING } : Client).handleDisconnect none).1.id
        = ({ New with status := CONNECTING } : Client).id
      ∧ (({ New with status := CONNECTING } : Client).disconnect false).1.id
        = ({ New with status := CONNECTING } : Client).id
      ∧ (({ New with status := CONNECTING } : Client).applyConnectResult "abc").id = "abc" :=
  C2_amended { New with status := CONNECTING } none false "abc" (Or.inl rfl)

/-- C9: handleDisconnect invoked while the status is already
DISCONNECTED or CLOSED returns at once (client.go lines 307-310): the
state — status, transport, request registry, subscription map — is
returned unchanged and no OnDisconnect or OnUnsubscribe event fires;
the disconnect wrapper (lines 818-827) likewise leaves those fields
unchanged and fires nothing (it only stores its reconnect argument
in the reconnect flag before handleDisconnect returns early). -/
theorem C9_disconnect_idempotent (c : Client) (dopt : Option disconnect) (r : Bool)
    (h : c.status = DISCONNECTED ∨ c.status = CLOSED) :
    c.handleDisconnect dopt = (c, [])
      ∧ (c.disconnect r).1.status = c.status
      ∧ (c.disconnect r).1.transportOpen = c.transportOpen
      ∧ (c.disconnect r).1.requests = c.requests
      ∧ (c.disconnect r).1.subs = c.subs
      ∧ (c.disconnect r).1.serverSubs = c.serverSubs
      ∧ (c.disconnect r).2 = [] := by
  have h1 : c.handleDisconnect dopt = (c, []) := handleDisconnect_early_return c dopt h
  have h2 : c.disconnect r = ({ c with reconnect := r }, []) := by
    rw [Client.disconnect]
    exact handleDisconnect_early_return _ _ (by simpa using h)
  rw [h1, h2]
  exact ⟨rfl, rfl, rfl, rfl, rfl, rfl, rfl⟩

/-- C9, witness: a freshly created client (status DISCONNECTED) is left
unchanged by the disconnect routine. -/
theorem C9_disconnect_idempotent_witness :
    New.handleDisconnect none = (New, [])
      ∧ (New.disconnect true).1.status = New.status
      ∧ (New.disconnect true).1.transportOpen = New.transportOpen
      ∧ (New.disconnect true).1.requests = New.requests
      ∧ (New.disconnect true).1.subs = New.subs
      ∧ (New.disconnect true).1.serverSubs = New.serverSubs
      ∧ (New.disconnect true).2 = [] :=
  C9_disconnect_idempotent New none true (Or.inl rfl)

/-- C10: a call to Close when the status is already CLOSED first runs
Disconnect — whose handleDisconnect returns at once on a CLOSED client,
so only the reconnect flag is overwritten with false — and then hits
the `status == CLOSED` check (client.go lines 237-240), returning nil
without executing close(closeCh) again: no double-close panic, the
status stays CLOSED and the shutdown channel state is unchanged. -/
theorem C10_close_idempotent (c : Client) (h : c.status = CLOSED) :
    c.Close = .ok ({ c with reconnect := false }, [])
      ∧ ({ c with reconnect := false } : Client).status = CLOSED
      ∧ ({ c with reconnect := false } : Client).closeChClosed = c.closeChClosed := by
  have hd : c.Disconnect = ({ c with reconnect := false }, []) := by
    rw [Client.Disconnect, Client.disconnect]
    exact handleDisconnect_early_return _ _ (Or.inr (by simpa using h))
  refine ⟨?_, by simpa using h, rfl⟩
  rw [Client.Close, hd]
  simp only
  rw [if_pos (by simpa using h)]

/-- C10, witness: a concrete already-closed client. -/
theorem C10_close_idempotent_witness :
    ({ New with status := CLOSED, closeChClosed := true } : Client).Close
        = .ok ({ New with status := CLOSED, closeChClosed := true, reconnect := false }, [])
      ∧ ({ New with status := CLOSED, closeChClosed := true, reconnect := false } : Client).status
        = CLOSED
      ∧ ({ New with status := CLOSED, closeChClosed := true, reconnect := false } :
          Client).closeChClosed
        = ({ New with status := CLOSED, closeChClosed := true } : Client).closeChClosed :=
  C10_close_idempotent { New with status := CLOSED, closeChClosed := true } rfl

/-- C3, counterexample: close a fresh client, then call Send.  Close
leaves the transport nil, so Client.send (client.go lines 1382-1393)
returns ErrClientDisconnected — not the ErrClientClosed the claim
requires of "every subsequent public client operation". -/
theorem C3_counterexample :
    New.Close
        = Except.ok
            ({ New with reconnect := false, closeChClosed := true, status := CLOSED }, [])
      ∧ (({ New with reconnect := false, closeChClosed := true, status := CLOSED } :
            Client).send true).1
        = some Err.ClientDisconnected
      ∧ some Err.ClientDisconnected ≠ some Err.ClientClosed := by
  refine ⟨?_, rfl, by decide⟩
  rfl

/-- C3, amended: after close() the status is CLOSED and the transport
is nil; a subsequent Connect returns ErrClientClosed (the entry check
of connectFromScratch, client.go lines 637-641), but the operations
that write a command — send, and through sendAsync also rpc, publish,
history, presence, presenceStats, which all reach Client.send — return
ErrClientDisconnected because the transport is nil (lines 1383-1386);
the disconnect routine fires no further events on a CLOSED client. -/
theorem C3_amended (c : Client) (wOk : Bool) (dopt : Option disconnect)
    (h : c.status = CLOSED) (ht : c.transportOpen = false) :
    c.connectFromScratchEntry false = ConnectEntry.retClosed
      ∧ (c.send wOk).1 = some Err.ClientDisconnected
      ∧ c.handleDisconnect dopt = (c, []) := by
  refine ⟨?_, ?_, handleDisconnect_early_return c dopt (Or.inr h)⟩
  · rw [Client.connectFromScratchEntry]
    rw [if_neg (by simp), if_pos h]
  · rw [Client.send, if_pos (by simp [ht])]

/-- C3, witness for the amended theorem at a concrete closed client. -/
theorem C3_amended_witness :
    ({ New with status := CLOSED, closeChClosed := true } : Client).connectFromScratchEntry false
        = ConnectEntry.retClosed
      ∧ (({ New with status := CLOSED, closeChClosed := true } : Client).send true).1
        = some Err.ClientDisconnected
      ∧ ({ New with status := CLOSED, closeChClosed := true } : Client).handleDisconnect none
        = ({ New with status := CLOSED, closeChClosed := true }, []) :=
  C3_amended { New with status := CLOSED, closeChClosed := true } true none rfl rfl

/-- protocol.SubscribeRequest, restricted to the fields the client
fills in (uint32 Seq and Gen, uint64 Offset as Nat; zero values are the
protobuf defaults, i.e. the field is absent from the wire when zero). -/
structure SubscribeRequest where
  Channel : String := ""
  Recover : Bool := false
  Epoch : String := ""
  Offset : Nat := 0
  Seq : Nat := 0
  Gen : Nat := 0
  Token : String := ""
deriving DecidableEq, Repr

/-- protocol.ConnectRequest, restricted to the fields the client fills
in; Data is the raw connect-payload bytes (none models a nil Go
slice), Subs the per-channel recovery requests. -/
structure ConnectRequest where
  Token : String := ""
  Data : Option (List Nat) := none
  Subs : Option (List (String × SubscribeRequest)) := none
deriving DecidableEq, Repr

/-- The recovery map built by sendConnect for a reconnect, client.go
lines 966-977: one SubscribeRequest with Recover true and the stored
epoch and offset per recoverable server-sub; non-recoverable entries
are skipped by the `continue`. -/
def recoverServerSubsRequests (serverSubs : List (String × serverSub)) :
    List (String × SubscribeRequest) :=
  serverSubs.filterMap
    (fun p =>
      if p.2.Recoverable then
        some (p.1, { Recover := true, Epoch := p.2.Epoch, Offset := p.2.Offset })
      else none)

/-- The params value of the Connect command built by sendConnect,
client.go lines 957-984: the ConnectRequest (and with it the whole
params payload) is built only when the token is non-empty or the
connect data is non-nil; inside it, Token and Data are set when
present, and on a reconnect with a non-empty server-sub map the
recovery requests are attached. -/
def sendConnectParams (token : String) (connectData : Option (List Nat))
    (serverSubs : List (String × serverSub)) (isReconnect : Bool) :
    Option ConnectRequest :=
  if token ≠ "" ∨ connectData ≠ none then
    let params0 : ConnectRequest := {}
    let params1 := if token ≠ "" then { params0 with Token := token } else params0
    let params2 := if connectData ≠ none then { params1 with Data := connectData } else params1
    let params3 :=
      if isReconnect ∧ 0 < serverSubs.length then
        { params2 with Subs := some (recoverServerSubsRequests serverSubs) }
      else params2
    some params3
  else none

/-- C4, counterexample: a reconnect with an empty token and nil
connect data sends a Connect command with no params at all (client.go
line 957 guards the whole params block), even though the stored
server-sub map holds a recoverable channel — so the command contains
no subscribe request for it, refuting the claim for this input. -/
theorem C4_counterexample :
    sendConnectParams "" none
        [("news", { Offset := 12, Epoch := "epoch-1", Recoverable := true })] true
      = none := by
  rfl

/-- C4, amended: provided the token is non-empty or the connect data
is non-nil, a reconnect with a non-empty stored server-sub map sends a
Connect command whose Subs field holds, for exactly the server-subs
whose recoverable flag is true, a subscribe request with Recover set
and that server-sub's stored epoch and offset; non-recoverable
server-subs are omitted. -/
theorem C4_amended (token : String) (connectData : Option (List Nat))
    (serverSubs : List (String × serverSub))
    (hp : token ≠ "" ∨ connectData ≠ none) (hn : serverSubs ≠ []) :
    ∃ p, sendConnectParams token connectData serverSubs true = some p
      ∧ p.Subs = some (recoverServerSubsRequests serverSubs)
      ∧ ∀ ch sr, ((ch, sr) ∈ recoverServerSubsRequests serverSubs ↔
          ∃ ss, (ch, ss) ∈ serverSubs ∧ ss.Recoverable = true
            ∧ sr = { Recover := true, Epoch := ss.Epoch, Offset := ss.Offset }) := by
  have hlen : 0 < serverSubs.length := List.length_pos.mpr hn
  simp only [sendConnectParams]
  rw [if_pos hp]
  rw [if_pos (show True ∧ 0 < serverSubs.length from ⟨trivial, hlen⟩)]
  refine ⟨_, rfl, rfl, ?_⟩
  intro ch sr
  constructor
  · intro hmem
    rcases List.mem_filterMap.mp hmem with ⟨q, ha, hf⟩
    by_cases hr : q.2.Recoverable = true
    · rw [if_pos hr] at hf
      injection hf with hf2
      have hc : q.1 = ch := congrArg Prod.fst hf2
      have hs : ({ Recover := true, Epoch := q.2.Epoch, Offset := q.2.Offset } :
          SubscribeRequest) = sr := congrArg Prod.snd hf2
      refine ⟨q.2, ?_, hr, hs.symm⟩
      rw [← hc]
      exact ha
    · rw [if_neg hr] at hf
      exact absurd hf (by simp)
  · rintro ⟨ss, ha, hr, hsr⟩
    refine List.mem_filterMap.mpr ⟨(ch, ss), ha, ?_⟩
    show (if ss.Recoverable = true then
        some (ch, ({ Recover := true, Epoch := ss.Epoch, Offset := ss.Offset } :
          SubscribeRequest))
      else none) = some (ch, sr)
    rw [if_pos hr, hsr]

/-- A concrete two-channel server-sub map (one recoverable, one not),
used to witness the amended C4 theorem. -/
def sampleServerSubs : List (String × serverSub) :=
  [("a", { Offset := 3, Epoch := "e1", Recoverable := true }),
   ("b", { Offset := 7, Epoch := "e2", Recoverable := false })]

/-- C4, witness for the amended theorem on the concrete two-channel
server-sub map. -/
theorem C4_amended_witness :
    ∃ p, sendConnectParams "tok" none sampleServerSubs true = some p
      ∧ p.Subs = some (recoverServerSubsRequests sampleServerSubs)
      ∧ ∀ ch sr, ((ch, sr) ∈ recoverServerSubsRequests sampleServerSubs ↔
          ∃ ss, (ch, ss) ∈ sampleServerSubs ∧ ss.Recoverable = true
            ∧ sr = { Recover := true, Epoch := ss.Epoch, Offset := ss.Offset }) :=
  C4_amended "tok" none sampleServerSubs (Or.inl (by decide)) (by decide)

/-- streamPosition, client.go lines 1040-1045. -/
structure streamPosition where
  Seq : Nat := 0
  Gen : Nat := 0
  Offset : Nat := 0
  Epoch : String := ""
deriving DecidableEq, Repr

/-- The params value of the Subscribe command built by sendSubscribe,
client.go lines 1047-1064: when the recover flag is set, the legacy
seq/gen pair is copied whenever one of them is non-zero, otherwise the
offset is copied when non-zero; the epoch is always copied; the token
is attached when non-empty. -/
def sendSubscribeParams (channel : String) (recoverFlag : Bool)
    (streamPos : streamPosition) (token : String) : SubscribeRequest :=
  let params0 : SubscribeRequest := { Channel := channel }
  let params1 :=
    if recoverFlag then
      let pa : SubscribeRequest := { params0 with Recover := true }
      let pb :=
        if 0 < streamPos.Seq ∨ 0 < streamPos.Gen then
          { pa with Seq := streamPos.Seq, Gen := streamPos.Gen }
        else if 0 < streamPos.Offset then
          { pa with Offset := streamPos.Offset }
        else pa
      { pb with Epoch := streamPos.Epoch }
    else params0
  if token ≠ "" then { params1 with Token := token } else params1

/-- C5, counterexample: with both encodings available (Seq = 1 and
Offset = 5), the built Subscribe request carries the legacy seq/gen
pair and drops the offset — the code (client.go lines 1054-1058)
checks seq/gen first, so the epoch+offset encoding is NOT preferred,
refuting the claim's preference clause at this input. -/
theorem C5_counterexample :
    (sendSubscribeParams "ch" true
        { Seq := 1, Gen := 0, Offset := 5, Epoch := "e" } "").Seq = 1
      ∧ (sendSubscribeParams "ch" true
          { Seq := 1, Gen := 0, Offset := 5, Epoch := "e" } "").Offset = 0 := by
  exact ⟨rfl, rfl⟩

/-- C5, amended: a Subscribe command built with the recover flag never
carries both position encodings at once — the request has Offset zero
or has both Seq and Gen zero.  The legacy seq/gen encoding is the
preferred one: it is sent (and the offset suppressed) whenever seq or
gen is non-zero, and the offset is sent only when seq and gen are both
zero and the offset is non-zero; if all are zero neither encoding is
sent.  The epoch is always included. -/
theorem C5_amended (ch : String) (sp : streamPosition) (token : String) :
    ((sendSubscribeParams ch true sp token).Offset = 0
        ∨ ((sendSubscribeParams ch true sp token).Seq = 0
            ∧ (sendSubscribeParams ch true sp token).Gen = 0))
      ∧ ((0 < sp.Seq ∨ 0 < sp.Gen) →
          (sendSubscribeParams ch true sp token).Seq = sp.Seq
            ∧ (sendSubscribeParams ch true sp token).Gen = sp.Gen
            ∧ (sendSubscribeParams ch true sp token).Offset = 0)
      ∧ (sp.Seq = 0 → sp.Gen = 0 → 0 < sp.Offset →
          (sendSubscribeParams ch true sp token).Offset = sp.Offset
            ∧ (sendSubscribeParams ch true sp token).Seq = 0
            ∧ (sendSubscribeParams ch true sp token).Gen = 0)
      ∧ (sendSubscribeParams ch true sp token).Epoch = sp.Epoch
      ∧ (sendSubscribeParams ch true sp token).Recover = true := by
  rcases sp with ⟨s, g, o, e⟩
  simp only [sendSubscribeParams]
  split_ifs with h1 h2 h3 <;> simp_all <;> omega

/-- C5, witness for the amended theorem at a position with only the
offset encoding available. -/
theorem C5_amended_witness :
    ((sendSubscribeParams "c" true { Seq := 0, Gen := 0, Offset := 7, Epoch := "e" } "").Offset = 0
        ∨ ((sendSubscribeParams "c" true
              { Seq := 0, Gen := 0, Offset := 7, Epoch := "e" } "").Seq = 0
            ∧ (sendSubscribeParams "c" true
                { Seq := 0, Gen := 0, Offset := 7, Epoch := "e" } "").Gen = 0))
      ∧ ((0 < (0 : Nat) ∨ 0 < (0 : Nat)) →
          (sendSubscribeParams "c" true
              { Seq := 0, Gen := 0, Offset := 7, Epoch := "e" } "").Seq = 0
            ∧ (sendSubscribeParams "c" true
                { Seq := 0, Gen := 0, Offset := 7, Epoch := "e" } "").Gen = 0
            ∧ (sendSubscribeParams "c" true
                { Seq := 0, Gen := 0, Offset := 7, Epoch := "e" } "").Offset = 0)
      ∧ ((0 : Nat) = 0 → (0 : Nat) = 0 → 0 < (7 : Nat) →
          (sendSubscribeParams "c" true
              { Seq := 0, Gen := 0, Offset := 7, Epoch := "e" } "").Offset = 7
            ∧ (sendSubscribeParams "c" true
                { Seq := 0, Gen := 0, Offset := 7, Epoch := "e" } "").Seq = 0
            ∧ (sendSubscribeParams "c" true
                { Seq := 0, Gen := 0, Offset := 7, Epoch := "e" } "").Gen = 0)
      ∧ (sendSubscribeParams "c" true
          { Seq := 0, Gen := 0, Offset := 7, Epoch := "e" } "").Epoch = "e"
      ∧ (sendSubscribeParams "c" true
          { Seq := 0, Gen := 0, Offset := 7, Epoch := "e" } "").Recover = true :=
  C5_amended "c" { Seq := 0, Gen := 0, Offset := 7, Epoch := "e" } ""

/-- The mutation `serverSub.Offset = pub.Offset` of client.go line
559, expressed on the association list: the entry stored under the
channel gets its Offset field replaced. -/
def setServerSubOffset : List (String × serverSub) → String → Nat → List (String × serverSub)
  | [], _, _ => []
  | (k, v) :: rest, ch, off =>
      (if k = ch then (k, { v with Offset := off }) else (k, v))
        :: setServerSubOffset rest ch off

/-- handleServerPublication, client.go lines 536-562: if the channel
has no server-sub the push is ignored; otherwise the OnServerPublish
handler runs, the server-sub is looked up again under the write lock,
and its stored offset is overwritten with the publication's offset. -/
def Client.handleServerPublication (c : Client) (channel : String) (pubOffset : Nat) :
    Client × List Event :=
  match lookupKey c.serverSubs channel with
  | none => (c, [])
  | some _ =>
    let evs := [Event.OnServerPublish channel pubOffset]
    match lookupKey c.serverSubs channel with
    | none => (c, evs)
    | some _ =>
      ({ c with serverSubs := setServerSubOffset c.serverSubs channel pubOffset }, evs)

/-- Looking up after setServerSubOffset returns the stored entry with
its Offset replaced. -/
theorem lookupKey_setServerSubOffset (m : List (String × serverSub)) (ch : String)
    (off : Nat) :
    lookupKey (setServerSubOffset m ch off) ch
      = (lookupKey m ch).map (fun ss => { ss with Offset := off }) := by
  induction m with
  | nil => rfl
  | cons hd tl ih =>
    obtain ⟨k, v⟩ := hd
    by_cases hk : k = ch
    · subst hk
      simp only [setServerSubOffset]
      rw [if_pos trivial]
      simp only [lookupKey]
      rw [if_pos trivial, if_pos trivial]
      rfl
    · simp only [setServerSubOffset]
      rw [if_neg hk]
      simp only [lookupKey]
      rw [if_neg hk, if_neg hk]
      exact ih

/-- A CONNECTED client holding one server-sub on channel "news" with
stored offset 5. -/
def connectedWithServerSub : Client :=
  { New with
    status := CONNECTED
    serverSubs := [("news", { Offset := 5, Epoch := "e", Recoverable := true })] }

/-- C7, counterexample: a server-sub stored with offset 5 receives a
publication with offset 3; handleServerPublication overwrites the
stored offset with the incoming one (client.go line 559), so the
updated value 3 is strictly below the previous value 5 — refuting
"each update yields a value greater than or equal to the previous
one". -/
theorem C7_counterexample :
    lookupKey ((connectedWithServerSub.handleServerPublication "news" 3).1.serverSubs) "news"
        = some { Offset := 3, Epoch := "e", Recoverable := true }
      ∧ ¬ (5 : Nat) ≤ 3 := by
  exact ⟨rfl, by decide⟩

/-- C7, amended: each handled server publication overwrites the stored
offset of that channel's server-sub with the publication's own offset
(no maximum is taken), so the stored offset is non-decreasing only
when the incoming publication offsets themselves are non-decreasing;
in particular an update is ≥ the previous stored value iff the
incoming offset is. -/
theorem C7_amended (c : Client) (ch : String) (off : Nat) (ss : serverSub)
    (h : lookupKey c.serverSubs ch = some ss) :
    lookupKey ((c.handleServerPublication ch off).1.serverSubs) ch
        = some { ss with Offset := off }
      ∧ (ss.Offset ≤ ({ ss with Offset := off } : serverSub).Offset ↔ ss.Offset ≤ off) := by
  refine ⟨?_, Iff.rfl⟩
  rw [Client.handleServerPublication]
  rw [h]
  simp only
  rw [lookupKey_setServerSubOffset, h]
  rfl

/-- C7, witness for the amended theorem at a concrete increasing
input: a publication with offset 9 over a stored offset 5. -/
theorem C7_amended_witness :
    lookupKey ((connectedWithServerSub.handleServerPublication "news" 9).1.serverSubs) "news"
        = some { Offset := 9, Epoch := "e", Recoverable := true }
      ∧ ((5 : Nat) ≤ 9 ↔ (5 : Nat) ≤ 9) :=
  C7_amended connectedWithServerSub "news" 9
    { Offset := 5, Epoch := "e", Recoverable := true } rfl

/-- newSubscription, the Subscription constructor of sub.go.  Modelled
from the spec (sub.go is not under src/): a new Subscription carries
its channel name, starts in status UNSUBSCRIBED and with the recover
flag cleared (spec sections 3 and 4.5). -/
def Client.newSubscription (_ : Client) (channel : String) : Subscription :=
  { channel := channel, subStatus := UNSUBSCRIBED, recover := false }

/-- NewSubscription, client.go lines 1028-1038: under the client mutex,
return ErrDuplicateSubscription when the channel already has a
Subscription in the map, otherwise create one and store it. -/
def Client.NewSubscription (c : Client) (channel : String) :
    Client × Except Err Subscription :=
  match lookupKey c.subs channel with
  | some _ => (c, .error Err.DuplicateSubscription)
  | none =>
    let sub := c.newSubscription channel
    ({ c with subs := c.subs ++ [(channel, sub)] }, .ok sub)

/-- A key that lookupKey misses has no entries at all. -/
theorem countKey_eq_zero_of_lookupKey_none {α : Type} (m : List (String × α)) (ch : String)
    (h : lookupKey m ch = none) : countKey m ch = 0 := by
  induction m with
  | nil => rfl
  | cons hd tl ih =>
    obtain ⟨k, v⟩ := hd
    by_cases hk : k = ch
    · rw [lookupKey, if_pos hk] at h
      exact absurd h (by simp)
    · rw [lookupKey, if_neg hk] at h
      simpa [countKey, hk] using ih h

/-- countKey splits over list append. -/
theorem countKey_append {α : Type} (m1 m2 : List (String × α)) (ch : String) :
    countKey (m1 ++ m2) ch = countKey m1 ch + countKey m2 ch := by
  simp [countKey, List.filter_append]

/-- C8: NewSubscription returns ErrDuplicateSubscription exactly when
the channel already has a Subscription in the client's map; on that
error the map is unchanged; otherwise exactly one new entry for the
channel is appended (its count goes from zero to one, other channels'
counts are untouched), and the at-most-one-Subscription-per-channel
invariant of the map is preserved. -/
theorem C8_no_duplicate_subscription (c : Client) (ch : String) :
    ((c.NewSubscription ch).2 = .error Err.DuplicateSubscription
        ↔ (lookupKey c.subs ch).isSome = true)
      ∧ ((lookupKey c.subs ch).isSome = true → (c.NewSubscription ch).1 = c)
      ∧ ((lookupKey c.subs ch).isSome = false →
          (c.NewSubscription ch).1.subs = c.subs ++ [(ch, c.newSubscription ch)]
            ∧ countKey c.subs ch = 0
            ∧ countKey (c.NewSubscription ch).1.subs ch = 1
            ∧ ∀ ch2, ch2 ≠ ch →
                countKey (c.NewSubscription ch).1.subs ch2 = countKey c.subs ch2)
      ∧ ((∀ ch2, countKey c.subs ch2 ≤ 1) →
          ∀ ch2, countKey (c.NewSubscription ch).1.subs ch2 ≤ 1) := by
  cases hl : lookupKey c.subs ch with
  | some s =>
    refine ⟨?_, ?_, ?_, ?_⟩
    · simp [Client.NewSubscription, hl]
    · intro _
      simp [Client.NewSubscription, hl]
    · intro hfalse
      exact absurd hfalse (by simp)
    · intro hinv ch2
      have : (c.NewSubscription ch).1 = c := by simp [Client.NewSubscription, hl]
      rw [this]
      exact hinv ch2
  | none =>
    have hzero : countKey c.subs ch = 0 := countKey_eq_zero_of_lookupKey_none c.subs ch hl
    have hsubs : (c.NewSubscription ch).1.subs = c.subs ++ [(ch, c.newSubscription ch)] := by
      simp [Client.NewSubscription, hl]
    refine ⟨?_, ?_, ?_, ?_⟩
    · simp [Client.NewSubscription, hl]
    · intro htrue
      exact absurd htrue (by simp)
    · intro _
      refine ⟨hsubs, hzero, ?_, ?_⟩
      · rw [hsubs, countKey_append, hzero]
        simp [countKey]
      · intro ch2 hne
        rw [hsubs, countKey_append]
        simp [countKey, Ne.symm hne]
    · intro hinv ch2
      by_cases h2 : ch2 = ch
      · subst h2
        rw [hsubs, countKey_append, hzero]
        simp [countKey]
      · rw [hsubs, countKey_append]
        have hone : countKey [(ch, c.newSubscription ch)] ch2 = 0 := by
          simp [countKey, Ne.symm h2]
        rw [hone]
        simpa using hinv ch2

/-- C8, witness: on a fresh client the subscription is created for
channel "test" and the map invariant is kept. -/
theorem C8_no_duplicate_subscription_witness :
    ((New.NewSubscription "test").2 = .error Err.DuplicateSubscription
        ↔ (lookupKey New.subs "test").isSome = true)
      ∧ ((lookupKey New.subs "test").isSome = true → (New.NewSubscription "test").1 = New)
      ∧ ((lookupKey New.subs "test").isSome = false →
          (New.NewSubscription "test").1.subs
              = New.subs ++ [("test", New.newSubscription "test")]
            ∧ countKey New.subs "test" = 0
            ∧ countKey (New.NewSubscription "test").1.subs "test" = 1
            ∧ ∀ ch2, ch2 ≠ "test" →
                countKey (New.NewSubscription "test").1.subs ch2 = countKey New.subs ch2)
      ∧ ((∀ ch2, countKey New.subs ch2 ≤ 1) →
          ∀ ch2, countKey (New.NewSubscription "test").1.subs ch2 ≤ 1) :=
  C8_no_duplicate_subscription New "test"

/-
  Interleaving model of the request registry for one command id.

  The concurrent actors that touch the registry entry of a single
  request-bearing command are, in the source:
  - the reader goroutine's reply path, handle (client.go lines 428-438):
    read the entry under requestsMu.RLock (430-432), then — outside the
    lock — invoke its callback with the reply (433-437), then
    removeRequest under requestsMu.Lock (438);
  - the goroutine spawned by sendAsync (lines 1358-1378): its select
    picks either the timeout branch (1361-1368) or the closeCh branch
    (1369-1376); either branch reads the entry under requestsMu.RLock,
    then — outside the lock — invokes the callback with ErrTimeout or
    ErrClientClosed, and the deferred removeRequest (1359) runs when
    the goroutine returns;
  - handleDisconnect (lines 312-318, 339-343): atomically snapshot the
    whole map and replace it by an empty one under requestsMu.Lock,
    then — outside the lock — invoke every snapshotted callback with
    ErrClientDisconnected.

  Each lock-protected section is one atomic step of the model; the
  callback invocations happen between the atomic steps, exactly as in
  the source.  The state tracks whether the entry is present and the
  list of callback invocations (none = the server reply, some e = the
  error e).
-/

/-- Program counter of one actor in the registry model. -/
inductive RegPC where
  | start
  | sawTrue
  | sawFalse
  | invoked
  | done
deriving DecidableEq, Repr

/-- State of the registry race for one command id: whether the entry
is still in c.requests, which callback invocations happened so far,
and where each actor stands.  timerErr is ErrTimeout or ErrClientClosed
depending on which branch of the sendAsync select fired. -/
structure RegistryWorld where
  present : Bool
  fired : List (Option Err)
  replyPC : RegPC
  timerPC : RegPC
  timerErr : Err
  discPC : RegPC
deriving DecidableEq, Repr

/-- The atomic steps of the three actors (see the block comment above
for the source lines each step embeds). -/
inductive RegStep where
  | replyLookup
  | replyInvoke
  | replyRemove
  | timerLookup
  | timerInvoke
  | timerRemove
  | discDrain
  | discInvoke
deriving DecidableEq, Repr

/-- One atomic step of the registry race.  none means the step is not
enabled in this state. -/
def regStep (w : RegistryWorld) (s : RegStep) : Option RegistryWorld :=
  match s with
  | .replyLookup =>
    if w.replyPC = .start then
      some { w with replyPC := if w.present then .sawTrue else .sawFalse }
    else none
  | .replyInvoke =>
    if w.replyPC = .sawTrue then
      some { w with fired := w.fired ++ [none], replyPC := .invoked }
    else none
  | .replyRemove =>
    if w.replyPC = .invoked ∨ w.replyPC = .sawFalse then
      some { w with present := false, replyPC := .done }
    else none
  | .timerLookup =>
    if w.timerPC = .start then
      some { w with timerPC := if w.present then .sawTrue else .sawFalse }
    else none
  | .timerInvoke =>
    if w.timerPC = .sawTrue then
      some { w with fired := w.fired ++ [some w.timerErr], timerPC := .invoked }
    else none
  | .timerRemove =>
    if w.timerPC = .invoked ∨ w.timerPC = .sawFalse then
      some { w with present := false, timerPC := .done }
    else none
  | .discDrain =>
    if w.discPC = .start then
      some { w with present := false, discPC := if w.present then .sawTrue else .done }
    else none
  | .discInvoke =>
    if w.discPC = .sawTrue then
      some { w with fired := w.fired ++ [some Err.ClientDisconnected], discPC := .done }
    else none

/-- Run a sequence of steps; the run aborts (none) if a step is not
enabled. -/
def regRun (w : RegistryWorld) : List RegStep → Option RegistryWorld
  | [] => some w
  | s :: rest =>
    match regStep w s with
    | none => none
    | some w2 => regRun w2 rest

/-- The state right after sendAsync registered the callback and the
write succeeded while connected: the entry is present, nothing fired
yet, the reply path and the timer goroutine are both live (the timer's
select will take the timeout branch), and no disconnect is running. -/
def regInit : RegistryWorld :=
  { present := true
    fired := []
    replyPC := .start
    timerPC := .start
    timerErr := Err.Timeout
    discPC := .done }

/-- C1: the registered callback can be invoked twice.  In the
interleaving in which the server reply arrives just as the request
timeout expires, the reader's lookup (requestsMu.RLock, client.go
lines 430-432) and the timer goroutine's lookup (lines 1362-1364) both
find the entry present before either removal runs; each then invokes
the callback — once with the reply and once with ErrTimeout — because
neither invocation re-checks nor removes the entry atomically with its
lookup.  This refutes "the registered callback is invoked exactly
once" and confirms the source lacks the compare-and-set transition the
spec's design notes call for. -/
theorem C1_callback_fired_twice :
    (regRun regInit
        [RegStep.replyLookup, RegStep.timerLookup, RegStep.replyInvoke,
         RegStep.timerInvoke, RegStep.replyRemove, RegStep.timerRemove]).map
      RegistryWorld.fired
      = some [none, some Err.Timeout] := by
  rfl

end Centrifuge
